/-
Verification of NeoRecorder's FFmpeg handler (src/utils/ffmpeg_handler.py)
against its natural-language specification.

The handler is shallowly embedded: wall-clock instants are rationals,
the subprocess layer is an explicit environment of launch/exit outcomes,
the filesystem is a list of existing paths, and the two regular
expressions of the progress monitor are embedded as Brzozowski-derivative
matchers over `List Char`.
-/
import Mathlib

namespace NeoRecorder

/-! ## Regular expressions (Python `re` search, boolean semantics)

`_start_output_monitor` compiles two patterns:

  progress_pattern:
    frame=\s*(\d+)\s+fps=\s*([\d.]+)\s+.*?size=\s*(\S+)\s+
    time=(\S+)\s+bitrate=\s*(\S+)\s+.*?speed=\s*(\S+)
  dropped_pattern (IGNORECASE): drop\s*=\s*(\d+)

`re.search` succeeds iff the pattern matches some substring, so the
boolean semantics of `search r s` is full-match of `Σ* r Σ*`. -/

inductive Re where
  | emp : Re
  | eps : Re
  | cls : (Char → Bool) → Re
  | cat : Re → Re → Re
  | alt : Re → Re → Re
  | star : Re → Re

namespace Re

/-- Smart concatenation: collapses the empty language and the empty word. -/
def scat : Re → Re → Re
  | emp, _ => emp
  | _, emp => emp
  | eps, r => r
  | r, eps => r
  | r, s => cat r s

/-- Smart alternation: collapses the empty language. -/
def salt : Re → Re → Re
  | emp, r => r
  | r, emp => r
  | r, s => alt r s

def nullable : Re → Bool
  | emp => false
  | eps => true
  | cls _ => false
  | cat r s => nullable r && nullable s
  | alt r s => nullable r || nullable s
  | star _ => true

/-- Brzozowski derivative with respect to one character. -/
def deriv : Re → Char → Re
  | emp, _ => emp
  | eps, _ => emp
  | cls p, c => if p c then eps else emp
  | cat r s, c =>
      if nullable r then salt (scat (deriv r c) s) (deriv s c)
      else scat (deriv r c) s
  | alt r s, c => salt (deriv r c) (deriv s c)
  | star r, c => scat (deriv r c) (star r)

/-- Does `r` match the whole character list? -/
def matches' (r : Re) (s : List Char) : Bool :=
  nullable (s.foldl deriv r)

/-- Any character at all (the implicit context of `re.search`). -/
def anyCh : Re := cls fun _ => true

/-- `re.search` semantics: the pattern matches some substring. -/
def search (r : Re) (s : String) : Bool :=
  matches' (cat (star anyCh) (cat r (star anyCh))) s.data

/-- One or more repetitions. -/
def plus (r : Re) : Re := cat r (star r)

/-- Literal string. -/
def lit (s : String) : Re :=
  s.data.foldr (fun c r => cat (cls fun d => d = c) r) eps

/-- Case-insensitive literal (for `re.IGNORECASE`). -/
def litCI (s : String) : Re :=
  s.data.foldr (fun c r => cat (cls fun d => d.toLower = c.toLower) r) eps

end Re

/-- Python `\s` on the ASCII range. -/
def pySpace (c : Char) : Bool :=
  c = ' ' || c = '\t' || c = '\n' || c = '\x0d' || c = '\x0c' || c = '\x0b'

/-- Python `\d` (ASCII digits). -/
def pyDigit (c : Char) : Bool := c.isDigit

/-- Python `.` (any character but newline). -/
def pyDot (c : Char) : Bool := c ≠ '\n'

/-- Python `\S`. -/
def pyNonSpace (c : Char) : Bool := !pySpace c

/-- The structured telemetry pattern of `_start_output_monitor`
(capture groups carry no weight for boolean matching). -/
def progressPattern : Re :=
  Re.cat (Re.lit "frame=") <| Re.cat (Re.star (Re.cls pySpace)) <|
  Re.cat (Re.plus (Re.cls pyDigit)) <| Re.cat (Re.plus (Re.cls pySpace)) <|
  Re.cat (Re.lit "fps=") <| Re.cat (Re.star (Re.cls pySpace)) <|
  Re.cat (Re.plus (Re.cls fun c => pyDigit c || c = '.')) <|
  Re.cat (Re.plus (Re.cls pySpace)) <|
  Re.cat (Re.star (Re.cls pyDot)) <|
  Re.cat (Re.lit "size=") <| Re.cat (Re.star (Re.cls pySpace)) <|
  Re.cat (Re.plus (Re.cls pyNonSpace)) <| Re.cat (Re.plus (Re.cls pySpace)) <|
  Re.cat (Re.lit "time=") <| Re.cat (Re.plus (Re.cls pyNonSpace)) <|
  Re.cat (Re.plus (Re.cls pySpace)) <|
  Re.cat (Re.lit "bitrate=") <| Re.cat (Re.star (Re.cls pySpace)) <|
  Re.cat (Re.plus (Re.cls pyNonSpace)) <| Re.cat (Re.plus (Re.cls pySpace)) <|
  Re.cat (Re.star (Re.cls pyDot)) <|
  Re.cat (Re.lit "speed=") <| Re.cat (Re.star (Re.cls pySpace)) <|
  Re.plus (Re.cls pyNonSpace)

/-- The dropped-frame pattern `drop\s*=\s*(\d+)` with `re.IGNORECASE`. -/
def droppedPattern : Re :=
  Re.cat (Re.litCI "drop") <| Re.cat (Re.star (Re.cls pySpace)) <|
  Re.cat (Re.lit "=") <| Re.cat (Re.star (Re.cls pySpace)) <|
  Re.plus (Re.cls pyDigit)

def progressSearch (line : String) : Bool := Re.search progressPattern line
def droppedSearch (line : String) : Bool := Re.search droppedPattern line

/-! ## Progress data and the monitor's per-line processing -/

/-- `RecordingProgress` dataclass. `fps` is kept as the captured numeric
token (the Python float conversion is a value-preserving reading of it). -/
structure RecordingProgress where
  frame : Nat := 0
  fps : String := "0.0"
  bitrate : String := "0kbits/s"
  size : String := "0kB"
  time : String := "00:00:00.00"
  speed : String := "0x"
  dropped : Nat := 0
deriving Repr, DecidableEq

/-- Suffix of the character list after the first occurrence of `key`. -/
def afterFirst (key : List Char) : List Char → Option (List Char)
  | [] => if key.isEmpty then some [] else none
  | c :: rest =>
      if key.isPrefixOf (c :: rest) then some (List.drop key.length (c :: rest))
      else afterFirst key rest

/-- Case-insensitive variant of `afterFirst` (for the IGNORECASE pattern). -/
def afterFirstCI (key : List Char) : List Char → Option (List Char)
  | [] => if key.isEmpty then some [] else none
  | c :: rest =>
      if (key.map Char.toLower).isPrefixOf ((c :: rest).map Char.toLower |>.take key.length)
      then some (List.drop key.length (c :: rest))
      else afterFirstCI key rest

def digitsToNat (cs : List Char) : Nat :=
  cs.foldl (fun n c => 10 * n + (c.toNat - '0'.toNat)) 0

/-- Capture group following `key`, after skipping `\s*`, taken as the
maximal run of characters satisfying `p`. -/
def groupAfter (key : String) (p : Char → Bool) (skipWs : Bool) (line : String) :
    Option String :=
  match afterFirst key.data line.data with
  | none => none
  | some rest =>
      let rest := if skipWs then rest.dropWhile pySpace else rest
      let tok := rest.takeWhile p
      if tok.isEmpty then none else some (String.mk tok)

/-- The six capture groups of `progress_pattern`, read off the line. -/
def extractProgress (line : String) : RecordingProgress :=
  { frame := digitsToNat (((groupAfter "frame=" pyDigit true line).getD "0").data)
    fps := (groupAfter "fps=" (fun c => pyDigit c || c = '.') true line).getD "0.0"
    size := (groupAfter "size=" pyNonSpace true line).getD "0kB"
    time := (groupAfter "time=" pyNonSpace false line).getD "00:00:00.00"
    bitrate := (groupAfter "bitrate=" pyNonSpace true line).getD "0kbits/s"
    speed := (groupAfter "speed=" pyNonSpace true line).getD "0x" }

/-- The capture group of `dropped_pattern`. -/
def extractDropped (line : String) : Nat :=
  match afterFirstCI "drop".data line.data with
  | none => 0
  | some rest =>
      let rest := rest.dropWhile pySpace
      match rest with
      | '=' :: rest => digitsToNat ((rest.dropWhile pySpace).takeWhile pyDigit)
      | _ => 0

/-- Shared monitor state: the last parsed progress, the per-segment log
file contents, and the output queue. -/
structure MonitorState where
  lastProgress : RecordingProgress := {}
  logLines : List String := []
  outputQueue : List String := []
deriving Repr, DecidableEq

/-- One iteration of the monitor loop of `_start_output_monitor` on a
decoded, stripped line. Returns the new state and whether the progress
callback was invoked (a callback is assumed registered). Blank lines are
skipped by the loop's `continue`. -/
def monitorStep (st : MonitorState) (line : String) : MonitorState × Bool :=
  if line = "" then (st, false)
  else
    let logLines := st.logLines ++ [line]
    let (lastProgress, invoked) :=
      if progressSearch line then
        let p := extractProgress line
        let p := if droppedSearch line then { p with dropped := extractDropped line } else p
        (p, true)
      else (st.lastProgress, false)
    ({ lastProgress := lastProgress, logLines := logLines,
       outputQueue := st.outputQueue ++ [line] }, invoked)

/-! ## Configuration (src/config.py) -/

/-- One entry of `QUALITY_PRESETS` (the UI labels carry no weight here). -/
structure QualityPreset where
  crf : Nat
  preset : String
deriving Repr, DecidableEq

/-- `QUALITY_PRESETS` from src/config.py. -/
def QUALITY_PRESETS : List (String × QualityPreset) :=
  [("ultrafast", ⟨23, "ultrafast"⟩),
   ("balanced", ⟨20, "fast"⟩),
   ("quality", ⟨18, "medium"⟩),
   ("lossless", ⟨0, "ultrafast"⟩)]

/-- `QUALITY_PRESETS.get(quality_preset, QUALITY_PRESETS["balanced"])`. -/
def getQuality (qualityPreset : String) : QualityPreset :=
  (QUALITY_PRESETS.lookup qualityPreset).getD ⟨20, "fast"⟩

def USE_HARDWARE_ENCODER : Bool := true

/-- The resolved ffmpeg binary path; its concrete value does not affect
any argument-building logic, so it is fixed to the bare command name. -/
def FFMPEG_PATH : String := "ffmpeg"

/-- `get_best_encoder`: the first encoder of the fixed priority list that
was detected, software otherwise (or when hardware encoding is disabled). -/
def getBestEncoder (availableEncoders : List String) : String :=
  if !USE_HARDWARE_ENCODER then "libx264"
  else match ["h264_nvenc", "h264_qsv", "h264_amf"].find? (availableEncoders.contains ·) with
       | some enc => enc
       | none => "libx264"

/-! ## Command builder (`_try_ffmpeg`, lines 202–262) -/

/-- A capture rectangle (x, y, x2, y2) in screen pixels. -/
structure Rect where
  x : Int
  y : Int
  x2 : Int
  y2 : Int
deriving Repr, DecidableEq

/-- Region-capture input options: offset plus a size sanitized to even
dimensions. -/
def rectOpts : Option Rect → List String
  | none => []
  | some r =>
      let w := r.x2 - r.x
      let h := r.y2 - r.y
      let w := if w % 2 = 0 then w else w - 1
      let h := if h % 2 = 0 then h else h - 1
      ["-offset_x", toString r.x, "-offset_y", toString r.y,
       "-video_size", toString w ++ "x" ++ toString h]

/-- Microphone dshow input options. -/
def micOpts : Option String → List String
  | none => []
  | some m => ["-f", "dshow", "-i", "audio=" ++ m]

/-- Encoder-specific rate-control options (the if/elif chain of
`_try_ffmpeg`). -/
def rateControlOpts (encoder : String) (quality : QualityPreset) : List String :=
  if encoder = "libx264" then
    ["-preset", quality.preset, "-tune", "zerolatency", "-crf", toString quality.crf]
  else if encoder = "h264_nvenc" then
    ["-preset", "p4", "-tune", "ll", "-rc", "vbr",
     "-cq", toString (quality.crf + 5), "-b:v", "0"]
  else if encoder = "h264_qsv" then
    ["-preset", "faster", "-global_quality", toString (quality.crf + 5)]
  else if encoder = "h264_amf" then
    ["-quality", "speed", "-rc", "cqp",
     "-qp_i", toString quality.crf, "-qp_p", toString quality.crf]
  else []

/-- The argument list built by `_try_ffmpeg` for one launch. -/
def buildCmd (outputPath : String) (inputFormat : String) (rect : Option Rect)
    (mic : Option String) (framerate : Nat) (qualityPreset : String)
    (encoder : String) : List String :=
  let quality := getQuality qualityPreset
  [FFMPEG_PATH, "-y", "-f", inputFormat, "-framerate", toString framerate]
    ++ rectOpts rect ++ ["-i", "desktop"] ++ micOpts mic
    ++ ["-c:v", encoder] ++ rateControlOpts encoder quality
    ++ ["-pix_fmt", "yuv420p", "-vsync", "cfr"]
    ++ [outputPath]

/-- The element directly after the first occurrence of `flag`, i.e. the
value an ffmpeg option was given. -/
def valueAfterFlag (flag : String) : List String → Option String
  | [] => none
  | a :: rest => if a = flag then rest.head? else valueAfterFlag flag rest

/-! ## Handler state (`FFmpegHandler.__init__`)

Wall-clock instants are rationals. Python truthiness of the optional
float timestamps (`if not self.start_timestamp`, `if self._pause_start`)
treats a 0.0 value like an unset one; the embedding keeps that corner. -/

/-- The parameter dict stored by `start_recording` for resume. -/
structure RecParams where
  rect : Option Rect
  mic : Option String
  system : Bool
  framerate : Nat
  qualityPreset : String
deriving Repr, DecidableEq

structure HandlerState where
  hasProcess : Bool := false
  currentOutput : Option String := none
  startTimestamp : Option ℚ := none
  availableEncoders : List String := []
  segments : List String := []
  segmentIndex : Nat := 0
  isPaused : Bool := false
  pauseStart : Option ℚ := none
  totalPauseDuration : ℚ := 0
  recordingParams : Option RecParams := none
  finalOutput : Option String := none
  tempDir : Option String := none
  isRecording : Bool := false
  lastProgress : RecordingProgress := {}
deriving DecidableEq

/-- Outcomes of the subprocess layer during one handler call: whether
the k-th `Popen` call raises, the `str(e)` text of the exception when it
does, and whether the spawned process is still alive shortly after the
launch (the code never consults the latter). -/
structure LaunchEnv where
  spawnOk : Nat → Bool
  spawnErr : Nat → String
  aliveAfter : Nat → Bool

/-- One process launch: capture backend, frame rate, encoder, full
argument list. -/
structure Attempt where
  inputFormat : String
  framerate : Nat
  encoder : String
  cmd : List String
deriving Repr, DecidableEq, Inhabited

/-- `_try_ffmpeg` (lines 195–293): builds the command, opens the log,
launches the process and attaches the monitor. Success is exactly
"`Popen` did not raise"; a raising `Popen` prints
`Failed to start FFmpeg: ` followed by the exception text and closes the
log. No settle wait or liveness check follows the launch, so
`env.aliveAfter` is never read. `k` numbers the `Popen` calls made by
the enclosing handler call; the last component is the console output of
this call. -/
def tryFfmpeg (st : HandlerState) (env : LaunchEnv) (k : Nat)
    (outputPath inputFormat : String) (rect : Option Rect) (mic : Option String)
    (framerate : Nat) (qualityPreset : String) :
    HandlerState × Attempt × Bool × List String :=
  let encoder := getBestEncoder st.availableEncoders
  let cmd := buildCmd outputPath inputFormat rect mic framerate qualityPreset encoder
  let att : Attempt := ⟨inputFormat, framerate, encoder, cmd⟩
  if env.spawnOk k then ({ st with hasProcess := true }, att, true, [])
  else (st, att, false, ["Failed to start FFmpeg: " ++ env.spawnErr k])

/-- Zero-padded four-digit index (`f"segment_{i:04d}.mp4"`). -/
def pad4 (n : Nat) : String :=
  let s := toString n
  String.mk (List.replicate (4 - s.length) '0') ++ s

/-- What one `_start_segment` call produced. `warningCallbacks` lists
messages delivered to the caller through a warning callback; the
handler's callback surface (`set_callbacks`) has no warning channel, so
it is empty by construction. -/
structure StartOutcome where
  success : Bool
  attempts : List Attempt
  consoleLines : List String
  warningCallbacks : List String
  onStartedFired : Bool
deriving Repr, DecidableEq

/-- `_start_segment` (lines 150–193): one attempt with ddagrab, on
failure one fallback attempt with gdigrab at `min(framerate, 60)`. -/
def startSegment (st : HandlerState) (env : LaunchEnv) : HandlerState × StartOutcome :=
  match st.tempDir, st.recordingParams with
  | some tempDir, some params =>
    if tempDir = "" then (st, ⟨false, [], [], [], false⟩)
    else
      let segPath := tempDir ++ "/segment_" ++ pad4 st.segmentIndex ++ ".mp4"
      let st := { st with segments := st.segments ++ [segPath],
                          currentOutput := some segPath }
      let (st, att1, ok1, con1) := tryFfmpeg st env 0 segPath "ddagrab" params.rect
        params.mic params.framerate params.qualityPreset
      let (st, attempts, console, success) :=
        if ok1 then (st, [att1], con1, true)
        else
          let fallbackFps := min params.framerate 60
          let (st, att2, ok2, con2) := tryFfmpeg st env 1 segPath "gdigrab" params.rect
            params.mic fallbackFps params.qualityPreset
          (st, [att1, att2],
           con1 ++ ["ddagrab failed, falling back to gdigrab..."] ++ con2, ok2)
      if success then
        ({ st with isRecording := true, segmentIndex := st.segmentIndex + 1 },
         ⟨true, attempts, console, [], true⟩)
      else (st, ⟨false, attempts, console, [], false⟩)
  | _, _ => (st, ⟨false, [], [], [], false⟩)

/-- `start_recording` (lines 116–148); `tempDir` is the fresh directory
`tempfile.mkdtemp` produced. -/
def startRecording (st : HandlerState) (env : LaunchEnv) (now : ℚ) (tempDir : String)
    (outputPath : String) (rect : Option Rect) (mic : Option String) (system : Bool)
    (framerate : Nat) (qualityPreset : String) : HandlerState × StartOutcome :=
  if st.isRecording then (st, ⟨false, [], [], [], false⟩)
  else
    let st := { st with
      isPaused := false, totalPauseDuration := 0, segments := [], segmentIndex := 0,
      finalOutput := some outputPath, tempDir := some tempDir,
      recordingParams := some ⟨rect, mic, system, framerate, qualityPreset⟩,
      startTimestamp := some now }
    startSegment st env

/-! ## Pause / resume / elapsed time -/

/-- The observable actions taken against a live encoder process while
shutting it down. -/
inductive PAction where
  | sendQuit | waitClean | terminate | waitTerm | kill
deriving Repr, DecidableEq

/-- Behaviour of the process being shut down: does the graceful
`b"q"` write + bounded wait complete, does terminate + wait complete. -/
structure ProcStopEnv where
  gracefulOk : Bool
  terminateOk : Bool
deriving Repr, DecidableEq

/-- The escalation `pause` performs (lines 386–396): graceful quit,
then terminate on failure; a terminate failure is itself swallowed and
nothing further happens. -/
def pauseEscalation (env : ProcStopEnv) : List PAction :=
  if env.gracefulOk then [PAction.sendQuit, PAction.waitClean]
  else [PAction.sendQuit, PAction.terminate, PAction.waitTerm]

/-- The escalation `stop_recording` performs on a live process
(lines 450–462): graceful quit, then terminate, then kill. -/
def stopEscalation (env : ProcStopEnv) : List PAction :=
  if env.gracefulOk then [PAction.sendQuit, PAction.waitClean]
  else if env.terminateOk then [PAction.sendQuit, PAction.terminate, PAction.waitTerm]
  else [PAction.sendQuit, PAction.terminate, PAction.kill]

/-- `pause` (lines 377–404): guard, stop the current segment's process,
close the log, mark paused and record the pause start. -/
def pause (st : HandlerState) (now : ℚ) (env : ProcStopEnv) :
    HandlerState × Bool × List PAction :=
  if !st.isRecording || st.isPaused || !st.hasProcess then (st, false, [])
  else
    ({ st with hasProcess := false, isPaused := true, pauseStart := some now },
     true, pauseEscalation env)

/-- What one `resume` call produced. -/
structure ResumeOutcome where
  success : Bool
  errorCallbacks : List String
  attempts : List Attempt
deriving Repr, DecidableEq

/-- `resume` (lines 406–427): close the pause interval into the running
total, clear the paused flag, then start a new segment; on failure the
error callback fires. -/
def resume (st : HandlerState) (now : ℚ) (env : LaunchEnv) :
    HandlerState × ResumeOutcome :=
  if !st.isRecording || !st.isPaused then (st, ⟨false, [], []⟩)
  else
    let st :=
      match st.pauseStart with
      | some t =>
          if t = 0 then st
          else { st with totalPauseDuration := st.totalPauseDuration + (now - t),
                         pauseStart := none }
      | none => st
    let st := { st with isPaused := false }
    let (st, out) := startSegment st env
    if out.success then (st, ⟨true, [], out.attempts⟩)
    else (st, ⟨false, ["Failed to resume recording"], out.attempts⟩)

/-- `get_elapsed_time` (lines 577–587). -/
def getElapsedTime (st : HandlerState) (now : ℚ) : ℚ :=
  match st.startTimestamp with
  | none => 0
  | some ts =>
      if ts = 0 then 0
      else
        let elapsed := now - ts - st.totalPauseDuration
        let elapsed :=
          if st.isPaused then
            match st.pauseStart with
            | some p => if p = 0 then elapsed else elapsed - (now - p)
            | none => elapsed
          else elapsed
        max 0 elapsed

/-! ## Merge, cleanup, stop -/

/-- Outcomes of the merge step's filesystem/subprocess operations:
whether `shutil.move` raises, and whether the concat run exits 0 with
the output file present. -/
structure MergeEnv where
  moveOk : Bool
  concatOk : Bool
deriving Repr, DecidableEq

/-- What `_merge_segments` produced: the returned path, the filesystem
afterwards, and whether the encoder's concat mode was invoked. -/
structure MergeOutcome where
  result : Option String
  fs : List String
  concatInvoked : Bool
deriving Repr, DecidableEq

/-- `_merge_segments` (lines 497–553) over an explicit filesystem (the
list of existing paths). -/
def mergeSegments (st : HandlerState) (env : MergeEnv) (fs : List String) :
    MergeOutcome :=
  if st.segments = [] then ⟨none, fs, false⟩
  else
    let existingSegments := st.segments.filter (fs.contains ·)
    if existingSegments = [] then ⟨none, fs, false⟩
    else if existingSegments.length = 1 then
      match st.finalOutput, env.moveOk with
      | some finalOutput, true =>
          ⟨some finalOutput,
           fs.filter (· ≠ existingSegments.headI) ++ [finalOutput], false⟩
      | _, _ => ⟨some existingSegments.headI, fs, false⟩
    else
      let concatFile := st.tempDir.getD "" ++ "/concat_list.txt"
      let fs := fs ++ [concatFile]
      match st.finalOutput, env.concatOk with
      | some finalOutput, true => ⟨some finalOutput, fs ++ [finalOutput], true⟩
      | _, _ => ⟨some existingSegments.getLastI, fs, true⟩

/-- Does `pre` start the string `s`? (Character-list reading of a path
prefix test.) -/
def strStarts (pre s : String) : Bool := pre.data.isPrefixOf s.data

/-- `_cleanup_temp` (lines 555–566): `shutil.rmtree` removes every path
below the temp directory. -/
def cleanupTemp (st : HandlerState) (fs : List String) :
    HandlerState × List String :=
  match st.tempDir with
  | none => (st, fs)
  | some d =>
      ({ st with tempDir := none },
       fs.filter (fun p => !(strStarts (d ++ "/") p)))

def basename (p : String) : String := (p.splitOn "/").getLastI

/-- The result dict of `stop_recording`. -/
structure StopResult where
  outputPath : Option String
  duration : ℚ
  filename : Option String
  pauseDuration : ℚ
  segmentsCount : Nat
  lastProgress : RecordingProgress
deriving DecidableEq

/-- `stop_recording` (lines 442–495): compute the duration, stop the
live process unless paused, merge segments, delete the temp directory,
build the result and reset the state. -/
def stopRecording (st : HandlerState) (now : ℚ) (penv : ProcStopEnv)
    (menv : MergeEnv) (fs : List String) :
    HandlerState × List String × StopResult × List PAction :=
  let duration : ℚ :=
    match st.startTimestamp with
    | some ts => if ts = 0 then 0 else now - ts - st.totalPauseDuration
    | none => 0
  let (st, acts) :=
    if !st.isPaused && st.hasProcess then
      ({ st with hasProcess := false }, stopEscalation penv)
    else (st, ([] : List PAction))
  let merged := mergeSegments st menv fs
  let (st, fs) := cleanupTemp st merged.fs
  let result : StopResult :=
    { outputPath := merged.result
      duration := duration
      filename := merged.result.map basename
      pauseDuration := st.totalPauseDuration
      segmentsCount := st.segments.length
      lastProgress := st.lastProgress }
  let st := { st with
    isRecording := false, isPaused := false, currentOutput := none,
    startTimestamp := none, totalPauseDuration := 0, segments := [],
    segmentIndex := 0, lastProgress := {} }
  (st, fs, result, acts)

/-! ## Spec-side expression and concrete fixtures -/

/-- Spec §4.5: the in-progress pause interval, when currently paused
(zero otherwise). Written from the spec's words, for comparison with
`getElapsedTime`. -/
def inProgressPauseInterval (st : HandlerState) (now : ℚ) : ℚ :=
  if st.isPaused then
    match st.pauseStart with
    | some p => now - p
    | none => 0
  else 0

/-- A mid-session fixture: hardware encoder detected, balanced preset,
session started at t = 100, first segment about to be (re)started. -/
def demoState : HandlerState :=
  { tempDir := some "T"
    recordingParams := some ⟨none, none, false, 60, "balanced"⟩
    availableEncoders := ["h264_nvenc"]
    startTimestamp := some 100
    isRecording := true
    hasProcess := true }

/-- The same session, paused at t = 110. -/
def demoPaused : HandlerState :=
  { demoState with isPaused := true, hasProcess := false, pauseStart := some 110 }

/-- The same session, paused, with two completed segments on disk. -/
def twoSegState : HandlerState :=
  { demoState with
    isPaused := true
    hasProcess := false
    segments := ["T/segment_0000.mp4", "T/segment_0001.mp4"]
    segmentIndex := 2
    finalOutput := some "out.mp4" }

/-- The filesystem holding the two completed segments. -/
def twoSegFs : List String := ["T/segment_0000.mp4", "T/segment_0001.mp4"]

/-- A session with one completed segment on disk. -/
def oneSegState : HandlerState :=
  { demoState with
    isPaused := true
    hasProcess := false
    segments := ["T/segment_0000.mp4"]
    segmentIndex := 1
    finalOutput := some "out.mp4" }

/-- Every `Popen` call raises (with a fixed exception text). -/
def envAllFail : LaunchEnv := ⟨fun _ => false, fun _ => "Popen failed", fun _ => false⟩

/-- The first `Popen` call raises, the second succeeds. -/
def envSecondOnly : LaunchEnv := ⟨fun k => k == 1, fun _ => "Popen failed", fun _ => true⟩

/-- Every `Popen` call succeeds but the process dies right away. -/
def envDeadPrimary : LaunchEnv := ⟨fun _ => true, fun _ => "", fun _ => false⟩

/-- An idle handler with a hardware encoder detected. -/
def idleState : HandlerState := { availableEncoders := ["h264_nvenc"] }

/-! ## Theorems -/

/-- Claim C10: a diagnostic line that carries a dropped-frame count but
does not match the full telemetry pattern leaves the whole
`RecordingProgress` value (dropped count included) unchanged and fires
no progress callback. -/
theorem dropped_count_gated_by_telemetry (st : MonitorState) (line : String)
    (hd : droppedSearch line = true) (hp : progressSearch line = false) :
    (monitorStep st line).1.lastProgress = st.lastProgress ∧
    (monitorStep st line).2 = false := by
  by_cases hline : line = ""
  · simp [monitorStep, hline]
  · simp [monitorStep, hline, hp]

/-- Claim C10 witness: the line "drop=5" matches the dropped-frame
pattern, not the telemetry pattern, and is processed without touching
the progress value or the callback. -/
theorem dropped_count_gated_by_telemetry_check :
    droppedSearch "drop=5" = true ∧ progressSearch "drop=5" = false ∧
    ((monitorStep {} "drop=5").1.lastProgress = ({} : MonitorState).lastProgress ∧
     (monitorStep {} "drop=5").2 = false) :=
  ⟨by decide, by decide,
   dropped_count_gated_by_telemetry {} "drop=5" (by decide) (by decide)⟩

/-- Claim C4: for a running session the elapsed-time query returns
`(now − sessionStart) − totalPausedDuration`, further reduced by the
in-progress pause interval when currently paused, clamped to be
non-negative. (Positivity of the wall-clock timestamps rules out the
Python-truthiness corner in which a 0.0 timestamp reads as unset.) -/
theorem getElapsedTime_spec (st : HandlerState) (now ts : ℚ)
    (hts : st.startTimestamp = some ts) (hpos : 0 < ts)
    (hps : ∀ p, st.pauseStart = some p → 0 < p) :
    getElapsedTime st now =
      max 0 ((now - ts) - st.totalPauseDuration - inProgressPauseInterval st now) ∧
    0 ≤ getElapsedTime st now := by
  have h1 : getElapsedTime st now =
      max 0 ((now - ts) - st.totalPauseDuration - inProgressPauseInterval st now) := by
    simp only [getElapsedTime, inProgressPauseInterval, hts]
    rw [if_neg hpos.ne']
    cases hip : st.isPaused
    · simp
    · cases hpp : st.pauseStart with
      | none => simp
      | some p =>
          simp only [if_true, if_pos]
          rw [if_neg (hps p hpp).ne']
  exact ⟨h1, by rw [h1]; exact le_max_left _ _⟩

/-- Claim C4 witness: at t = 120, a session started at t = 100 with 3
accumulated pause seconds and a pause open since t = 110 reports
`max 0 (120 − 100 − 3 − 10) = 7`. -/
theorem getElapsedTime_spec_check :
    getElapsedTime { demoPaused with totalPauseDuration := 3 } 120 =
      max 0 ((120 - 100) - 3 -
        inProgressPauseInterval { demoPaused with totalPauseDuration := 3 } 120) ∧
    0 ≤ getElapsedTime { demoPaused with totalPauseDuration := 3 } 120 :=
  getElapsedTime_spec _ 120 100 rfl (by norm_num)
    (by intro p hp
        simp only [demoPaused, demoState, Option.some_inj] at hp
        rw [← hp]; norm_num)

/-- Claim C1 (amended): when both capture backend launches raise, the
start call reports failure after exactly two launch attempts (one per
backend), both with the unchanged best encoder; no software demotion
happens and no warning reaches the caller. The console output consists
exactly of the two spawn-failure prints around the fallback line —
"Failed to start FFmpeg: " plus the exception text, the gdigrab
fallback line, and the second spawn-failure print — none of which is a
safe-mode message. -/
theorem startRecording_two_attempts_no_demotion (st : HandlerState) (env : LaunchEnv)
    (now : ℚ) (tempDir outputPath : String) (rect : Option Rect) (mic : Option String)
    (system : Bool) (framerate : Nat) (qualityPreset : String)
    (hidle : st.isRecording = false) (htd : tempDir ≠ "")
    (h0 : env.spawnOk 0 = false) (h1 : env.spawnOk 1 = false) :
    (startRecording st env now tempDir outputPath rect mic system framerate
        qualityPreset).2.success = false ∧
    (startRecording st env now tempDir outputPath rect mic system framerate
        qualityPreset).2.attempts.length = 2 ∧
    (∀ a ∈ (startRecording st env now tempDir outputPath rect mic system framerate
        qualityPreset).2.attempts, a.encoder = getBestEncoder st.availableEncoders) ∧
    (startRecording st env now tempDir outputPath rect mic system framerate
        qualityPreset).2.warningCallbacks = [] ∧
    (startRecording st env now tempDir outputPath rect mic system framerate
        qualityPreset).2.consoleLines =
      ["Failed to start FFmpeg: " ++ env.spawnErr 0,
       "ddagrab failed, falling back to gdigrab...",
       "Failed to start FFmpeg: " ++ env.spawnErr 1] := by
  refine ⟨?_, ?_, ?_, ?_, ?_⟩ <;>
    simp [startRecording, startSegment, tryFfmpeg, hidle, htd, h0, h1]

/-- Claim C1 counterexample: starting from an idle session with the
hardware encoder selected and every process launch failing, the start
call fails after exactly two launch attempts — not four — and the
warning-callback channel does not exist (no "safe mode" message). -/
theorem startRecording_four_attempts_refuted :
    getBestEncoder idleState.availableEncoders = "h264_nvenc" ∧
    (startRecording idleState envAllFail 100 "T" "out.mp4" none none false 60
        "balanced").2.success = false ∧
    (startRecording idleState envAllFail 100 "T" "out.mp4" none none false 60
        "balanced").2.attempts.length = 2 ∧
    ¬ (startRecording idleState envAllFail 100 "T" "out.mp4" none none false 60
        "balanced").2.attempts.length = 4 ∧
    (startRecording idleState envAllFail 100 "T" "out.mp4" none none false 60
        "balanced").2.warningCallbacks = [] ∧
    (∀ a ∈ (startRecording idleState envAllFail 100 "T" "out.mp4" none none false 60
        "balanced").2.attempts, a.encoder = "h264_nvenc") := by
  decide

/-- Claim C1 witness for the amended theorem. -/
theorem startRecording_two_attempts_no_demotion_check :
    (startRecording idleState envAllFail 100 "T" "out.mp4" none none false 60
        "balanced").2.success = false ∧
    (startRecording idleState envAllFail 100 "T" "out.mp4" none none false 60
        "balanced").2.attempts.length = 2 ∧
    (∀ a ∈ (startRecording idleState envAllFail 100 "T" "out.mp4" none none false 60
        "balanced").2.attempts, a.encoder = getBestEncoder idleState.availableEncoders) ∧
    (startRecording idleState envAllFail 100 "T" "out.mp4" none none false 60
        "balanced").2.warningCallbacks = [] ∧
    (startRecording idleState envAllFail 100 "T" "out.mp4" none none false 60
        "balanced").2.consoleLines =
      ["Failed to start FFmpeg: " ++ envAllFail.spawnErr 0,
       "ddagrab failed, falling back to gdigrab...",
       "Failed to start FFmpeg: " ++ envAllFail.spawnErr 1] :=
  startRecording_two_attempts_no_demotion idleState envAllFail 100 "T" "out.mp4"
    none none false 60 "balanced" rfl (by decide) rfl rfl

/-- Claim C3 (amended): `_try_ffmpeg` performs no settle wait and never
consults process liveness — changing the liveness bits of the
environment never changes the outcome — and when the primary backend's
spawn raises while the secondary's succeeds, the segment start succeeds
using the secondary backend at the clamped frame rate after exactly two
launches. -/
theorem startSegment_secondary_fallback (st : HandlerState) (env : LaunchEnv)
    (d : String) (p : RecParams) (htd : st.tempDir = some d) (hd : d ≠ "")
    (hrp : st.recordingParams = some p)
    (h0 : env.spawnOk 0 = false) (h1 : env.spawnOk 1 = true) :
    (startSegment st env).2.success = true ∧
    (startSegment st env).2.attempts.length = 2 ∧
    (startSegment st env).2.attempts.getLastI.inputFormat = "gdigrab" ∧
    (startSegment st env).2.attempts.getLastI.framerate = min p.framerate 60 ∧
    (∀ b : Nat → Bool,
      startSegment st { env with aliveAfter := b } = startSegment st env) := by
  refine ⟨?_, ?_, ?_, ?_, fun b => ?_⟩
  · simp [startSegment, tryFfmpeg, htd, hrp, hd, h0, h1]
  · simp [startSegment, tryFfmpeg, htd, hrp, hd, h0, h1]
  · simp [startSegment, tryFfmpeg, htd, hrp, hd, h0, h1, List.getLastI]
  · simp [startSegment, tryFfmpeg, htd, hrp, hd, h0, h1, List.getLastI]
  · simp [startSegment, tryFfmpeg, htd, hrp, hd]

/-- Claim C3 counterexample: a primary-backend process that spawns and
then immediately exits is accepted as success — the segment start
returns success after a single launch on the primary backend, with the
liveness bit false and never read. -/
theorem startSegment_dead_process_counterexample :
    envDeadPrimary.aliveAfter 0 = false ∧
    (startSegment demoState envDeadPrimary).2.success = true ∧
    (startSegment demoState envDeadPrimary).2.attempts.length = 1 ∧
    (startSegment demoState envDeadPrimary).2.attempts.headI.inputFormat = "ddagrab" := by
  decide

/-- Claim C3 witness for the amended theorem. -/
theorem startSegment_secondary_fallback_check :
    (startSegment demoState envSecondOnly).2.success = true ∧
    (startSegment demoState envSecondOnly).2.attempts.length = 2 ∧
    (startSegment demoState envSecondOnly).2.attempts.getLastI.inputFormat = "gdigrab" ∧
    (startSegment demoState envSecondOnly).2.attempts.getLastI.framerate =
      min (⟨none, none, false, 60, "balanced"⟩ : RecParams).framerate 60 ∧
    (∀ b : Nat → Bool,
      startSegment demoState { envSecondOnly with aliveAfter := b } =
        startSegment demoState envSecondOnly) :=
  startSegment_secondary_fallback demoState envSecondOnly "T"
    ⟨none, none, false, 60, "balanced"⟩ rfl (by decide) rfl rfl rfl

/-- Claim C6 (amended): when a resume attempt's segment start exhausts
its fallback, the failure is reported through the error callback, but
the session does not remain Paused — the paused flag was cleared before
the attempt and is never restored, so a subsequent Resume is a no-op
returning failure. -/
theorem resume_failure_reports_error_and_unpauses (st : HandlerState) (now : ℚ)
    (env : LaunchEnv) (d : String) (p : RecParams)
    (hrec : st.isRecording = true) (hpau : st.isPaused = true)
    (htd : st.tempDir = some d) (hd : d ≠ "") (hrp : st.recordingParams = some p)
    (h0 : env.spawnOk 0 = false) (h1 : env.spawnOk 1 = false) :
    (resume st now env).2.success = false ∧
    (resume st now env).2.errorCallbacks = ["Failed to resume recording"] ∧
    (resume st now env).1.isPaused = false ∧
    (resume st now env).1.isRecording = true ∧
    (∀ (now2 : ℚ) (env2 : LaunchEnv),
      (resume (resume st now env).1 now2 env2).2.success = false) := by
  have hmain : (resume st now env).2.success = false ∧
      (resume st now env).2.errorCallbacks = ["Failed to resume recording"] ∧
      (resume st now env).1.isPaused = false ∧
      (resume st now env).1.isRecording = true := by
    cases hpp : st.pauseStart with
    | none =>
        simp [resume, startSegment, tryFfmpeg, hrec, hpau, htd, hrp, hd, h0, h1, hpp]
    | some t =>
        by_cases ht : t = 0 <;>
          simp [resume, startSegment, tryFfmpeg, hrec, hpau, htd, hrp, hd, h0, h1, hpp, ht]
  have hguard : ∀ (s : HandlerState), s.isPaused = false →
      ∀ (n : ℚ) (e : LaunchEnv), (resume s n e).2.success = false := by
    intro s hs n e
    simp [resume, hs]
  exact ⟨hmain.1, hmain.2.1, hmain.2.2.1, hmain.2.2.2,
    fun now2 env2 => hguard _ hmain.2.2.1 now2 env2⟩

/-- Claim C6 counterexample: a resume at t = 120 whose two launch
attempts both fail reports the error, yet the session is no longer
Paused afterwards. -/
theorem resume_remains_paused_refuted :
    (resume demoPaused 120 envAllFail).2.success = false ∧
    (resume demoPaused 120 envAllFail).2.errorCallbacks =
      ["Failed to resume recording"] ∧
    ¬ (resume demoPaused 120 envAllFail).1.isPaused = true := by
  decide

/-- Claim C6 witness for the amended theorem. -/
theorem resume_failure_reports_error_and_unpauses_check :
    (resume demoPaused 120 envAllFail).2.success = false ∧
    (resume demoPaused 120 envAllFail).2.errorCallbacks =
      ["Failed to resume recording"] ∧
    (resume demoPaused 120 envAllFail).1.isPaused = false ∧
    (resume demoPaused 120 envAllFail).1.isRecording = true ∧
    (∀ (now2 : ℚ) (env2 : LaunchEnv),
      (resume (resume demoPaused 120 envAllFail).1 now2 env2).2.success = false) :=
  resume_failure_reports_error_and_unpauses demoPaused 120 envAllFail "T"
    ⟨none, none, false, 60, "balanced"⟩ rfl rfl rfl (by decide) rfl rfl rfl

/-- Claim C7 (amended): pause sends the single graceful-quit byte and
waits a bounded timeout; on failure it escalates to a terminate signal
whose own failure is swallowed — pause never escalates to a forced
kill. -/
theorem pause_escalation_no_kill (st : HandlerState) (now : ℚ) (env : ProcStopEnv)
    (hrec : st.isRecording = true) (hpau : st.isPaused = false)
    (hpr : st.hasProcess = true) :
    (pause st now env).2.1 = true ∧
    (pause st now env).2.2 =
      (if env.gracefulOk then [PAction.sendQuit, PAction.waitClean]
       else [PAction.sendQuit, PAction.terminate, PAction.waitTerm]) ∧
    PAction.kill ∉ (pause st now env).2.2 ∧
    (pause st now env).1.isPaused = true ∧
    (pause st now env).1.pauseStart = some now := by
  have h2 : (pause st now env).2.2 = pauseEscalation env := by
    simp [pause, hrec, hpau, hpr]
  refine ⟨?_, ?_, ?_, ?_, ?_⟩
  · simp [pause, hrec, hpau, hpr]
  · rw [h2]; rfl
  · rw [h2]; unfold pauseEscalation
    cases env.gracefulOk <;> decide
  · simp [pause, hrec, hpau, hpr]
  · simp [pause, hrec, hpau, hpr]

/-- Claim C7 counterexample: with both the graceful quit and the
terminate escalation failing, pause's action trace is quit–terminate–
wait and contains no forced kill. -/
theorem pause_kill_refuted :
    (pause demoState 110 ⟨false, false⟩).2.1 = true ∧
    (pause demoState 110 ⟨false, false⟩).2.2 =
      [PAction.sendQuit, PAction.terminate, PAction.waitTerm] ∧
    PAction.kill ∉ (pause demoState 110 ⟨false, false⟩).2.2 := by
  decide

/-- Claim C7 witness for the amended theorem. -/
theorem pause_escalation_no_kill_check :
    (pause demoState 110 ⟨false, false⟩).2.1 = true ∧
    (pause demoState 110 ⟨false, false⟩).2.2 =
      (if (⟨false, false⟩ : ProcStopEnv).gracefulOk
       then [PAction.sendQuit, PAction.waitClean]
       else [PAction.sendQuit, PAction.terminate, PAction.waitTerm]) ∧
    PAction.kill ∉ (pause demoState 110 ⟨false, false⟩).2.2 ∧
    (pause demoState 110 ⟨false, false⟩).1.isPaused = true ∧
    (pause demoState 110 ⟨false, false⟩).1.pauseStart = some 110 :=
  pause_escalation_no_kill demoState 110 ⟨false, false⟩ rfl rfl rfl

/-- Claim C2: evaluation at the failing input — with two segments on
disk and the concat step failing, `stop_recording` returns the last
segment's path as the final output, but the stop sequence's
temp-directory cleanup has deleted that very file, so it no longer
exists once the stop sequence completes. -/
theorem stop_merge_failure_deletes_returned_segment :
    (stopRecording twoSegState 130 ⟨true, true⟩ ⟨true, false⟩ twoSegFs).2.2.1.outputPath =
      some "T/segment_0001.mp4" ∧
    "T/segment_0001.mp4" ∉
      (stopRecording twoSegState 130 ⟨true, true⟩ ⟨true, false⟩ twoSegFs).2.1 := by
  decide

/-- Claim C8: merging with zero existing segments reports a null result
without touching the filesystem or invoking the concat mode; merging
with exactly one existing segment moves it to the requested final path
without invoking the concat mode and returns the final path. -/
theorem mergeSegments_zero_and_single (st : HandlerState) (env : MergeEnv)
    (fs : List String) (f : String)
    (hf : st.finalOutput = some f) (hmv : env.moveOk = true) :
    (st.segments.filter (fs.contains ·) = [] →
      mergeSegments st env fs = ⟨none, fs, false⟩) ∧
    (∀ s, st.segments.filter (fs.contains ·) = [s] →
      mergeSegments st env fs = ⟨some f, fs.filter (· ≠ s) ++ [f], false⟩) := by
  constructor
  · intro h0
    by_cases hseg : st.segments = []
    · simp only [mergeSegments, if_pos hseg]
    · simp only [mergeSegments, if_neg hseg]
      rw [h0]
      simp
  · intro s h1
    have hseg : st.segments ≠ [] := by
      intro h; rw [h] at h1; simp at h1
    simp only [mergeSegments, if_neg hseg]
    rw [h1, hf, hmv]
    simp [List.headI]

/-- Claim C8 witness: one segment on disk is moved to `out.mp4`. -/
theorem mergeSegments_zero_and_single_check :
    mergeSegments oneSegState ⟨true, true⟩ ["T/segment_0000.mp4"] =
      ⟨some "out.mp4", ["out.mp4"], false⟩ := by
  have h := (mergeSegments_zero_and_single oneSegState ⟨true, true⟩
      ["T/segment_0000.mp4"] "out.mp4" rfl rfl).2 "T/segment_0000.mp4" (by decide)
  rw [h]
  decide

/-- Claim C9 (amended): the argument builder is a pure function of its
inputs; the software encoder receives the preset's crf directly on
`-crf`; `h264_nvenc` and `h264_qsv` receive the crf shifted by the
fixed offset +5 on `-cq` and `-global_quality`; `h264_amf` receives the
crf directly — a zero offset — on its cqp flags. -/
theorem buildCmd_quality_scales (o i : String) (rect : Option Rect)
    (mic : Option String) (fr : Nat) (k : String) :
    ["-crf", toString (getQuality k).crf] <:+:
      buildCmd o i rect mic fr k "libx264" ∧
    ["-cq", toString ((getQuality k).crf + 5)] <:+:
      buildCmd o i rect mic fr k "h264_nvenc" ∧
    ["-global_quality", toString ((getQuality k).crf + 5)] <:+:
      buildCmd o i rect mic fr k "h264_qsv" ∧
    ["-qp_i", toString (getQuality k).crf] <:+:
      buildCmd o i rect mic fr k "h264_amf" ∧
    ["-qp_p", toString (getQuality k).crf] <:+:
      buildCmd o i rect mic fr k "h264_amf" := by
  refine ⟨?_, ?_, ?_, ?_, ?_⟩
  · exact ⟨[FFMPEG_PATH, "-y", "-f", i, "-framerate", toString fr] ++ rectOpts rect
      ++ ["-i", "desktop"] ++ micOpts mic
      ++ ["-c:v", "libx264", "-preset", (getQuality k).preset, "-tune", "zerolatency"],
      ["-pix_fmt", "yuv420p", "-vsync", "cfr", o], by simp [buildCmd, rateControlOpts]⟩
  · exact ⟨[FFMPEG_PATH, "-y", "-f", i, "-framerate", toString fr] ++ rectOpts rect
      ++ ["-i", "desktop"] ++ micOpts mic
      ++ ["-c:v", "h264_nvenc", "-preset", "p4", "-tune", "ll", "-rc", "vbr"],
      ["-b:v", "0", "-pix_fmt", "yuv420p", "-vsync", "cfr", o],
      by simp [buildCmd, rateControlOpts]⟩
  · exact ⟨[FFMPEG_PATH, "-y", "-f", i, "-framerate", toString fr] ++ rectOpts rect
      ++ ["-i", "desktop"] ++ micOpts mic
      ++ ["-c:v", "h264_qsv", "-preset", "faster"],
      ["-pix_fmt", "yuv420p", "-vsync", "cfr", o], by simp [buildCmd, rateControlOpts]⟩
  · exact ⟨[FFMPEG_PATH, "-y", "-f", i, "-framerate", toString fr] ++ rectOpts rect
      ++ ["-i", "desktop"] ++ micOpts mic
      ++ ["-c:v", "h264_amf", "-quality", "speed", "-rc", "cqp"],
      ["-qp_p", toString (getQuality k).crf, "-pix_fmt", "yuv420p", "-vsync", "cfr", o],
      by simp [buildCmd, rateControlOpts]⟩
  · exact ⟨[FFMPEG_PATH, "-y", "-f", i, "-framerate", toString fr] ++ rectOpts rect
      ++ ["-i", "desktop"] ++ micOpts mic
      ++ ["-c:v", "h264_amf", "-quality", "speed", "-rc", "cqp",
          "-qp_i", toString (getQuality k).crf],
      ["-pix_fmt", "yuv420p", "-vsync", "cfr", o], by simp [buildCmd, rateControlOpts]⟩

/-- Claim C9 counterexample: for the hardware encoder `h264_amf` the
value placed on the constant-quality flag `-qp_i` equals the preset's
crf itself, so the only offset consistent with the builder is zero, not
positive. -/
theorem buildCmd_amf_offset_refuted :
    (valueAfterFlag "-qp_i"
        (buildCmd "o.mp4" "ddagrab" none none 60 "balanced" "h264_amf")) =
      some (toString (getQuality "balanced").crf) ∧
    (∀ off : Nat, (getQuality "balanced").crf = (getQuality "balanced").crf + off →
      off = 0) := by
  refine ⟨by decide, fun off h => ?_⟩
  have h20 : (getQuality "balanced").crf = 20 := rfl
  rw [h20] at h
  omega

/-- Temp-directory cleanup does not change the accumulated pause total. -/
theorem cleanupTemp_totalPause (s : HandlerState) (l : List String) :
    (cleanupTemp s l).1.totalPauseDuration = s.totalPauseDuration := by
  unfold cleanupTemp
  cases s.tempDir <;> simp

/-- Temp-directory cleanup does not change the segment list. -/
theorem cleanupTemp_segments (s : HandlerState) (l : List String) :
    (cleanupTemp s l).1.segments = s.segments := by
  unfold cleanupTemp
  cases s.tempDir <;> simp

/-- Temp-directory cleanup does not change the last progress snapshot. -/
theorem cleanupTemp_lastProgress (s : HandlerState) (l : List String) :
    (cleanupTemp s l).1.lastProgress = s.lastProgress := by
  unfold cleanupTemp
  cases s.tempDir <;> simp

/-- Claim C5 (amended): the stop result's duration is wall-clock time
since session start minus the accumulated pause total only — an
in-progress pause interval at stop time is not subtracted — and the
result bundles path, duration, filename, pause total, segment count and
the last telemetry snapshot; no list of capture/encoder choices is
recorded anywhere. -/
theorem stopRecording_result_fields (st : HandlerState) (now ts : ℚ)
    (penv : ProcStopEnv) (menv : MergeEnv) (fs : List String)
    (hts : st.startTimestamp = some ts) (hpos : 0 < ts) :
    (stopRecording st now penv menv fs).2.2.1.duration =
      now - ts - st.totalPauseDuration ∧
    (stopRecording st now penv menv fs).2.2.1.pauseDuration =
      st.totalPauseDuration ∧
    (stopRecording st now penv menv fs).2.2.1.segmentsCount = st.segments.length ∧
    (stopRecording st now penv menv fs).2.2.1.lastProgress = st.lastProgress := by
  by_cases hc : (!st.isPaused && st.hasProcess) = true <;>
    simp [stopRecording, hts, hpos.ne', hc, cleanupTemp_totalPause,
      cleanupTemp_segments, cleanupTemp_lastProgress]

/-- Claim C5 counterexample: stopping at t = 120 a session started at
t = 100 with 3 s of accumulated pause and a pause open since t = 110
reports duration 17, while the §4.5 elapsed formula yields 7. -/
theorem stopRecording_duration_refuted :
    (stopRecording { demoPaused with totalPauseDuration := 3 } 120 ⟨true, true⟩
        ⟨true, true⟩ []).2.2.1.duration = 17 ∧
    getElapsedTime { demoPaused with totalPauseDuration := 3 } 120 = 7 ∧
    ¬ (stopRecording { demoPaused with totalPauseDuration := 3 } 120 ⟨true, true⟩
        ⟨true, true⟩ []).2.2.1.duration =
      getElapsedTime { demoPaused with totalPauseDuration := 3 } 120 := by
  have h1 : (stopRecording { demoPaused with totalPauseDuration := 3 } 120 ⟨true, true⟩
      ⟨true, true⟩ []).2.2.1.duration = 17 := by
    simp [stopRecording, demoPaused, demoState]
    norm_num
  have h2 : getElapsedTime { demoPaused with totalPauseDuration := 3 } 120 = 7 := by
    simp [getElapsedTime, demoPaused, demoState]
    norm_num
  refine ⟨h1, h2, ?_⟩
  rw [h1, h2]
  norm_num

/-- Claim C5 witness for the amended theorem. -/
theorem stopRecording_result_fields_check :
    (stopRecording twoSegState 130 ⟨true, true⟩ ⟨true, true⟩ twoSegFs).2.2.1.duration =
      130 - 100 - twoSegState.totalPauseDuration ∧
    (stopRecording twoSegState 130 ⟨true, true⟩ ⟨true, true⟩ twoSegFs).2.2.1.pauseDuration =
      twoSegState.totalPauseDuration ∧
    (stopRecording twoSegState 130 ⟨true, true⟩ ⟨true, true⟩ twoSegFs).2.2.1.segmentsCount =
      twoSegState.segments.length ∧
    (stopRecording twoSegState 130 ⟨true, true⟩ ⟨true, true⟩ twoSegFs).2.2.1.lastProgress =
      twoSegState.lastProgress :=
  stopRecording_result_fields twoSegState 130 100 ⟨true, true⟩ ⟨true, true⟩ twoSegFs
    rfl (by norm_num)

end NeoRecorder
